import Mathlib

set_option maxHeartbeats 1000000

/-!
Verification development for the kelthuzad process supervisor
(src/kelthuzad.go). The supervisor spawns a child process in its own
process group, watches a stream of text lines (either a tailed log file
or the child's stdout) for a failure pattern, and on a match notifies,
sleeps for a cooldown, signals the current process group and respawns.

The embedding below is a shallow model of that code. OS effects
(logger output, time.Sleep, syscall.Kill, process creation) are recorded
as events in a trace; the results of OS lookups (syscall.Getpgid) are
supplied by an environment. Spawn generations number the successive
exec.Cmd values created by spawn; generation g stands for the identity
(and the pid, and via Setpgid the pgid index) of the g-th spawned command.
-/

/-- Command-line options (struct opts, src/kelthuzad.go lines 28-34):
log path (empty means stdout-monitoring mode), command path, failure
pattern text, verbose flag, cooldown delay in seconds. -/
structure Opts where
  logPath : String
  cmdPath : String
  regex : String
  verbose : Bool
  delay : Nat
deriving DecidableEq, Repr

/-- Observable events of the supervisor: logger notifications, the
cooldown sleep, signals sent by syscall.Kill (target is the signed value
passed to the syscall, signal number 15 is SIGTERM), process spawns
(with whether SysProcAttr.Setpgid was set), scanner line deliveries
tagged with the generation whose stdout pipe they came from, and fatal
process exit (logger.Fatal or a panic). -/
inductive Event where
  | notifyFail (line pattern : String)
  | notifyWait (seconds : Nat)
  | sleepFor (seconds : Nat)
  | signalSent (target : Int) (sig : Nat)
  | spawned (gen : Nat) (setpgid : Bool)
  | notifyLine (line : String)
  | readLine (srcGen : Nat) (line : String)
  | fatalExit
deriving DecidableEq, Repr

/-- Results of OS-level lookups: getpgid pid models syscall.Getpgid,
returning the process-group id of the given pid (pids are modelled by
spawn generation numbers) or none when the lookup fails because the
process is already gone. -/
structure Env where
  getpgid : Nat → Option Int

/-- Supervisor state (struct Kelthuzad, lines 20-25): cmdGen is the
generation of the exec.Cmd currently held in k.cmd; stdoutGen records
which generation's stdout pipe k.stdout currently holds (some g only in
stdout-monitoring mode); opt the options; regex the compiled failure
matcher (regexp.MatchString modelled as a Boolean function on lines). -/
structure Kelthuzad where
  cmdGen : Nat
  stdoutGen : Option Nat
  opt : Opts
  regex : String → Bool

/-- spawn (lines 47-73): creates a new command for opt.CmdPath; in stdout
mode (LogPath empty) grabs the new command's stdout pipe into k.stdout;
sets SysProcAttr.Setpgid so the child gets its own process group; starts
the command and assigns it into k.cmd. The goroutine that calls
cmd.Start runs asynchronously; this sequential model folds a successful
Start into spawn itself (the concurrent model cstep below separates the
assignment from the goroutine's Start step). -/
def Kelthuzad.spawn (k : Kelthuzad) : Kelthuzad × List Event :=
  let g := k.cmdGen + 1
  ({ k with cmdGen := g,
            stdoutGen := if k.opt.logPath = "" then some g else k.stdoutGen },
   [Event.spawned g true])

/-- kill (lines 76-83): looks up the process group of the current
command's pid with syscall.Getpgid; on success sends signal 15 to the
negated group id (syscall.Kill(-pgid, 15)); on failure calls
logger.Fatal, which reports the error and exits the process. Returns
the events and whether the program is still running. -/
def Kelthuzad.kill (k : Kelthuzad) (env : Env) : List Event × Bool :=
  match env.getpgid k.cmdGen with
  | some pgid => ([Event.signalSent (-pgid) 15], true)
  | none => ([Event.fatalExit], false)

/-- check (lines 86-106): if the line matches the failure regex, print
the FAIL notification naming the line and the pattern, print the waiting
notification, sleep for the configured delay, kill the current command
and spawn a new one; otherwise, when verbose is set, print the line.
Returns the new state, the events, and whether the program is still
running (false when kill exited fatally, in which case spawn is never
reached). -/
def Kelthuzad.check (k : Kelthuzad) (env : Env) (line : String) :
    Kelthuzad × List Event × Bool :=
  if k.regex line then
    let pre := [Event.notifyFail line k.opt.regex, Event.notifyWait k.opt.delay,
                Event.sleepFor k.opt.delay]
    match k.kill env with
    | (kev, true) =>
      let (k1, sev) := k.spawn
      (k1, pre ++ kev ++ sev, true)
    | (kev, false) => (k, pre ++ kev, false)
  else if k.opt.verbose then (k, [Event.notifyLine line], true)
  else (k, [], true)

/-- Feeding a sequence of lines through check one by one, stopping when
a check exits fatally. This is the common body of both monitoring loops. -/
def Kelthuzad.runLines (env : Env) (k : Kelthuzad) :
    List String → Kelthuzad × List Event × Bool
  | [] => (k, [], true)
  | l :: ls =>
    match k.check env l with
    | (k1, ev, true) =>
      let (k2, ev2, b) := Kelthuzad.runLines env k1 ls
      (k2, ev ++ ev2, b)
    | (k1, ev, false) => (k1, ev, false)

/-- The os.SEEK_END whence value. -/
def seekEnd : Nat := 2

/-- Seek position for the tail library (offset relative to whence). -/
structure SeekInfo where
  offset : Int
  whence : Nat
deriving DecidableEq, Repr

/-- Configuration passed to tail.TailFile. -/
structure TailConfig where
  follow : Bool
  location : Option SeekInfo
deriving DecidableEq, Repr

/-- Lines delivered by the tail library, modelled from its documented
seek semantics. The monitored file is split into pre (lines already
present when tailing starts) and app (lines appended afterwards).
With location at offset 0 from seekEnd, tailing starts at the current
end of file and delivers only the appended lines; with location at the
beginning (or no location) every line is delivered. -/
def tailLines (cfg : TailConfig) (pre app : List String) : List String :=
  match cfg.location with
  | some loc => if loc.whence = seekEnd then app else pre ++ app
  | none => pre ++ app

/-- The tail configuration used by monitorLog at line 111:
Follow true, location at offset 0 from os.SEEK_END. -/
def kelTailConfig : TailConfig :=
  { follow := true, location := some { offset := 0, whence := seekEnd } }

/-- monitorLog (lines 109-120): tails the configured log with
kelTailConfig and feeds each delivered line to check. -/
def Kelthuzad.monitorLog (env : Env) (k : Kelthuzad) (pre app : List String) :
    Kelthuzad × List Event × Bool :=
  Kelthuzad.runLines env k (tailLines kelTailConfig pre app)

/-- One run of the inner scanner loop of monitorStdout
(for scanner.Scan at lines 126-128): the scanner is bound to the stdout
pipe of generation b for its whole lifetime; each line it delivers is
recorded as a readLine event tagged b and then passed to check; the loop
stops early only when check exits fatally. -/
def Kelthuzad.scanLoop (env : Env) (k : Kelthuzad) (b : Nat) :
    List String → Kelthuzad × List Event × Bool
  | [] => (k, [], true)
  | l :: ls =>
    match k.check env l with
    | (k1, ev, true) =>
      let (k2, ev2, c) := Kelthuzad.scanLoop env k1 b ls
      (k2, Event.readLine b l :: (ev ++ ev2), c)
    | (k1, ev, false) => (k1, Event.readLine b l :: ev, false)

/-- monitorStdout (lines 123-130): an unconditional outer for-loop that
re-creates a bufio.Scanner from the current k.stdout each time the inner
scan loop ends, with no wait of any kind between iterations. streams g
is the content still deliverable from generation g's stdout pipe; an
empty list models an ended pipe (closed and drained), on which Scan
returns false immediately. The fuel argument bounds how many outer
iterations are observed; the Nat in the result counts how many outer
iterations (scanner re-creations) actually ran. -/
def Kelthuzad.monitorStdout (env : Env) (k : Kelthuzad)
    (streams : Nat → List String) : Nat → Kelthuzad × List Event × Nat
  | 0 => (k, [], 0)
  | n + 1 =>
    let b := k.stdoutGen.getD 0
    match Kelthuzad.scanLoop env k b (streams b) with
    | (k1, ev, true) =>
      let streams1 := fun g => if g = b then [] else streams g
      let (k2, ev2, c) := Kelthuzad.monitorStdout env k1 streams1 n
      (k2, ev ++ ev2, c + 1)
    | (k1, ev, false) => (k1, ev, 1)

/-- New (lines 37-44): compiles the failure pattern with
regexp.MustCompile, which panics (the error is reported and the process
exits with non-zero status) when the pattern does not compile; only on
success does it spawn the first child. compile models regexp.Compile:
some matcher on success, none for an invalid pattern. -/
def New (compile : String → Option (String → Bool)) (opt : Opts) :
    Except (List Event) (Kelthuzad × List Event) :=
  match compile opt.regex with
  | none => Except.error [Event.fatalExit]
  | some re =>
    let k0 : Kelthuzad := { cmdGen := 0, stdoutGen := none, opt := opt, regex := re }
    let (k1, ev) := k0.spawn
    Except.ok (k1, ev)

/-- Whether an event is a termination signal (syscall.Kill). -/
def Event.isTerminate : Event → Bool
  | .signalSent _ _ => true
  | _ => false

/-- Whether an event is a process spawn. -/
def Event.isSpawn : Event → Bool
  | .spawned _ _ => true
  | _ => false

/-- A spawn event launched the child in its own new process group
(SysProcAttr.Setpgid was set). -/
def Event.spawnNewGroup (e : Event) : Prop :=
  ∀ g b, e = Event.spawned g b → b = true

/-- A termination signal carries SIGTERM and targets the negation of a
process-group id obtained from a getpgid lookup, never a bare pid. -/
def Event.terminateTargetsGroup (env : Env) (e : Event) : Prop :=
  ∀ t s, e = Event.signalSent t s → s = 15 ∧ ∃ p pg, env.getpgid p = some pg ∧ t = -pg

/-- First readLine event in a trace, as (source generation, line). -/
def firstRead : List Event → Option (Nat × String)
  | [] => none
  | Event.readLine g l :: _ => some (g, l)
  | _ :: rest => firstRead rest

/-- First readLine event occurring after the first spawned event. -/
def firstReadAfterSpawn : List Event → Option (Nat × String)
  | [] => none
  | Event.spawned _ _ :: rest => firstRead rest
  | _ :: rest => firstReadAfterSpawn rest

/-!
Concurrent model. The sequential model above folds the background
goroutine's cmd.Start into spawn. The Go code actually runs three
threads of execution: the main monitoring loop (which calls kill and
spawn from check), one goroutine per spawn that calls cmd.Start and
waits on the process (lines 61-69), and the interrupt-handler goroutine
(lines 162-167) that on a signal calls kel.kill() and os.Exit(0).
kel.kill() first reads k.cmd.Process.Pid (a nil dereference when the
goroutine has not yet run Start, since Start is what sets cmd.Process),
then performs Getpgid and Kill. The model below makes these thread
steps explicit and executes an arbitrary interleaving (schedule). -/

/-- Shared state of the concurrent model. cmdGen: generation of the
command currently in k.cmd (0 before the first spawn assigns it).
started g: whether generation g's goroutine has run cmd.Start (i.e.,
whether that command's Process field is set). pendingStart: goroutines
launched by spawn that have not yet run Start. osLive g: whether the
OS process group of generation g exists. signals: log of (group, signal)
pairs sent by syscall.Kill. sigPid: the pid captured by the interrupt
handler's read of k.cmd.Process.Pid. nilDeref: a nil Process field was
dereferenced. exited: os.Exit ran. fatal: logger.Fatal ran. -/
structure CState where
  cmdGen : Nat
  started : Nat → Bool
  pendingStart : List Nat
  osLive : Nat → Bool
  signals : List (Nat × Nat)
  sigPid : Option Nat
  nilDeref : Bool
  exited : Bool
  fatal : Bool

/-- Thread steps of the concurrent model: spawnAssign is the body of
spawn on the main thread (create the new command with Process unset,
launch its start-goroutine, assign it into k.cmd); goStart g is
generation g's goroutine running cmd.Start (creates the OS process and
its group, sets the Process field); mainKill is kel.kill() called from
check on the main thread; sigRead, sigKill, sigExit are the interrupt
handler's read of k.cmd.Process.Pid, its Getpgid+Kill, and os.Exit(0). -/
inductive CLabel where
  | spawnAssign
  | goStart (g : Nat)
  | mainKill
  | sigRead
  | sigKill
  | sigExit
deriving DecidableEq, Repr

/-- One step of the concurrent model. Once the program has exited,
crashed on a nil dereference, or exited fatally, no further step has an
effect. mainKill and sigRead dereference the current command's Process
field: if its goroutine has not yet run Start this is a nil dereference.
Getpgid succeeds while the process group still exists (a group whose
leader has been signalled but not reaped still exists, so signal
delivery being asynchronous is modelled by osLive remaining true). -/
def cstep (s : CState) (l : CLabel) : CState :=
  if s.exited || s.fatal || s.nilDeref then s else
  match l with
  | .spawnAssign =>
    let g := s.cmdGen + 1
    { s with cmdGen := g, pendingStart := g :: s.pendingStart }
  | .goStart g =>
    if g ∈ s.pendingStart then
      { s with pendingStart := s.pendingStart.erase g,
               started := fun x => if x = g then true else s.started x,
               osLive := fun x => if x = g then true else s.osLive x }
    else s
  | .mainKill =>
    if s.started s.cmdGen then
      if s.osLive s.cmdGen then { s with signals := s.signals ++ [(s.cmdGen, 15)] }
      else { s with fatal := true }
    else { s with nilDeref := true }
  | .sigRead =>
    if s.started s.cmdGen then { s with sigPid := some s.cmdGen }
    else { s with nilDeref := true }
  | .sigKill =>
    match s.sigPid with
    | some p =>
      if s.osLive p then { s with signals := s.signals ++ [(p, 15)] }
      else { s with fatal := true }
    | none => s
  | .sigExit => { s with exited := true }

/-- Run the concurrent model along a schedule. -/
def crun (s : CState) (ls : List CLabel) : CState := ls.foldl cstep s

/-- Initial state: no command assigned yet, nothing started, no OS
process, no signals sent. -/
def cinit : CState :=
  { cmdGen := 0, started := fun _ => false, pendingStart := [],
    osLive := fun _ => false, signals := [], sigPid := none,
    nilDeref := false, exited := false, fatal := false }

/-- Number of termination signals sent to the process group of
generation g. -/
def signalsTo (s : CState) (g : Nat) : Nat :=
  (s.signals.filter (fun p => p.1 = g)).length

/-- Schedule exhibiting the shutdown/respawn race: the first child is
spawned and started; a line matches, so the main loop kills generation 1
and proceeds to respawn; the interrupt handler fires in between and
reads k.cmd while it still holds generation 1; the main loop then
assigns and starts generation 2; the handler now sends its signal to
generation 1's group and exits the program. -/
def raceSched : List CLabel :=
  [CLabel.spawnAssign, CLabel.goStart 1, CLabel.mainKill, CLabel.sigRead,
   CLabel.spawnAssign, CLabel.goStart 2, CLabel.sigKill, CLabel.sigExit]

/-- Schedule exhibiting the nil-Process dereference: spawn has returned
(the command is assigned, its start-goroutine is pending) but the
goroutine has not yet run Start when kill is invoked from the main loop
(log-path mode: a matching log line can arrive immediately). -/
def nilSched : List CLabel := [CLabel.spawnAssign, CLabel.mainKill]

/-!
Claims. Each claim of the specification gets one theorem below.
-/

/-- C1: for every line classified as Match (the failure regex matches it)
whose kill's group lookup succeeds, check performs exactly the sequence
fail-notification naming the line and the pattern, waiting notification,
cooldown sleep, one termination signal, one spawn — each exactly once,
with the termination signal issued only after the cooldown sleep, and
never zero or two terminates or spawns. -/
theorem check_match_exact_sequence (env : Env) (k : Kelthuzad) (line : String)
    (g : Int) (hm : k.regex line = true) (hg : env.getpgid k.cmdGen = some g) :
    k.check env line =
      ((k.spawn).1,
       [Event.notifyFail line k.opt.regex, Event.notifyWait k.opt.delay,
        Event.sleepFor k.opt.delay, Event.signalSent (-g) 15,
        Event.spawned (k.cmdGen + 1) true], true)
    ∧ (((k.check env line).2.1).filter Event.isTerminate).length = 1
    ∧ (((k.check env line).2.1).filter Event.isSpawn).length = 1
    ∧ ∃ pre post, (k.check env line).2.1 =
        pre ++ Event.sleepFor k.opt.delay :: post
        ∧ pre.filter Event.isTerminate = []
        ∧ pre.filter Event.isSpawn = []
        ∧ post.filter Event.isTerminate = [Event.signalSent (-g) 15]
        ∧ post.filter Event.isSpawn = [Event.spawned (k.cmdGen + 1) true] := by
  have hlist : k.check env line =
      ((k.spawn).1,
       [Event.notifyFail line k.opt.regex, Event.notifyWait k.opt.delay,
        Event.sleepFor k.opt.delay, Event.signalSent (-g) 15,
        Event.spawned (k.cmdGen + 1) true], true) := by
    simp [Kelthuzad.check, Kelthuzad.kill, Kelthuzad.spawn, hm, hg]
  refine ⟨hlist, ?_, ?_, ?_⟩
  · rw [hlist]
    simp [Event.isTerminate, Event.isSpawn]
  · rw [hlist]
    simp [Event.isTerminate, Event.isSpawn]
  · refine ⟨[Event.notifyFail line k.opt.regex, Event.notifyWait k.opt.delay],
      [Event.signalSent (-g) 15, Event.spawned (k.cmdGen + 1) true], ?_, ?_, ?_, ?_, ?_⟩
    · rw [hlist]
      rfl
    · simp [Event.isTerminate]
    · simp [Event.isSpawn]
    · simp [Event.isTerminate, Event.isSpawn]
    · simp [Event.isTerminate, Event.isSpawn]

/-- Concrete supervisor state used to instantiate the C1 theorem. -/
def kC1 : Kelthuzad :=
  { cmdGen := 1, stdoutGen := some 1,
    opt := { logPath := "", cmdPath := "./svc", regex := "FATAL",
             verbose := false, delay := 5 },
    regex := fun l => l == "FATAL" }

/-- Concrete environment used to instantiate the C1 theorem. -/
def envC1 : Env := ⟨fun _ => some 4⟩

/-- Witness for C1: the hypotheses hold and the conclusion evaluates at a
concrete matching line. -/
theorem check_match_exact_sequence_witness :
    kC1.regex "FATAL" = true ∧ envC1.getpgid kC1.cmdGen = some 4 ∧
    (kC1.check envC1 "FATAL" =
      ((kC1.spawn).1,
       [Event.notifyFail "FATAL" kC1.opt.regex, Event.notifyWait kC1.opt.delay,
        Event.sleepFor kC1.opt.delay, Event.signalSent (-4) 15,
        Event.spawned (kC1.cmdGen + 1) true], true)
    ∧ (((kC1.check envC1 "FATAL").2.1).filter Event.isTerminate).length = 1
    ∧ (((kC1.check envC1 "FATAL").2.1).filter Event.isSpawn).length = 1
    ∧ ∃ pre post, (kC1.check envC1 "FATAL").2.1 =
        pre ++ Event.sleepFor kC1.opt.delay :: post
        ∧ pre.filter Event.isTerminate = []
        ∧ pre.filter Event.isSpawn = []
        ∧ post.filter Event.isTerminate = [Event.signalSent (-4) 15]
        ∧ post.filter Event.isSpawn = [Event.spawned (kC1.cmdGen + 1) true]) :=
  ⟨by decide, rfl, check_match_exact_sequence envC1 kC1 "FATAL" 4 (by decide) rfl⟩

/-- Concrete supervisor state whose process-group lookup will fail. -/
def kC2 : Kelthuzad :=
  { cmdGen := 1, stdoutGen := some 1,
    opt := { logPath := "", cmdPath := "./svc", regex := "FATAL",
             verbose := false, delay := 3 },
    regex := fun l => l == "FATAL" }

/-- Environment for C2: every process-group lookup fails (process gone). -/
def envC2 : Env := ⟨fun _ => none⟩

/-- C2 counterexample: when the group lookup fails during a
respawn-triggered terminate, the code calls logger.Fatal — the
supervision loop does not continue (the running flag is false) and no
respawn occurs, contradicting the claim that the failure is non-fatal
and the respawn is still performed. -/
theorem check_lookup_failure_cex :
    (kC2.check envC2 "FATAL").2 =
      ([Event.notifyFail "FATAL" "FATAL", Event.notifyWait 3,
        Event.sleepFor 3, Event.fatalExit], false)
    ∧ ((kC2.check envC2 "FATAL").2.1).filter Event.isSpawn = [] := by
  constructor
  · rfl
  · rfl

/-- C2 amended: when a respawn-triggered terminate's process-group
lookup fails, the failure is fatal: the error is reported (logger.Fatal)
and the program exits; the supervision loop does not continue and no
respawn is performed. -/
theorem check_lookup_failure_fatal (env : Env) (k : Kelthuzad) (line : String)
    (hm : k.regex line = true) (hg : env.getpgid k.cmdGen = none) :
    k.check env line =
      (k, [Event.notifyFail line k.opt.regex, Event.notifyWait k.opt.delay,
           Event.sleepFor k.opt.delay, Event.fatalExit], false)
    ∧ ((k.check env line).2.1).filter Event.isSpawn = [] := by
  have hlist : k.check env line =
      (k, [Event.notifyFail line k.opt.regex, Event.notifyWait k.opt.delay,
           Event.sleepFor k.opt.delay, Event.fatalExit], false) := by
    simp [Kelthuzad.check, Kelthuzad.kill, hm, hg]
  refine ⟨hlist, ?_⟩
  rw [hlist]
  simp [Event.isSpawn]

/-- Witness for the amended C2 at a concrete state and line. -/
theorem check_lookup_failure_fatal_witness :
    kC2.regex "FATAL" = true ∧ envC2.getpgid kC2.cmdGen = none ∧
    (kC2.check envC2 "FATAL" =
      (kC2, [Event.notifyFail "FATAL" kC2.opt.regex, Event.notifyWait kC2.opt.delay,
             Event.sleepFor kC2.opt.delay, Event.fatalExit], false)
    ∧ ((kC2.check envC2 "FATAL").2.1).filter Event.isSpawn = []) :=
  ⟨by decide, rfl, check_lookup_failure_fatal envC2 kC2 "FATAL" (by decide) rfl⟩

/-- C3: the failing behavior of monitorStdout at end of stream. When the
current stdout stream has ended (no line is deliverable — the child
exited without any match), every outer iteration of the unconditional
for-loop re-creates the scanner and immediately retries: for every fuel
n the loop performs n iterations producing no event, no wait of any
kind, and no state change. The loop therefore spins without bound on a
dead stream instead of waiting for a fresh line source, contradicting
the specified policy. -/
theorem monitorStdout_spins_without_wait (env : Env) (k : Kelthuzad)
    (streams : Nat → List String) (n : Nat) (h : ∀ g, streams g = []) :
    Kelthuzad.monitorStdout env k streams n = (k, [], n) := by
  induction n generalizing streams with
  | zero => rfl
  | succ n ih =>
    simp only [Kelthuzad.monitorStdout, h, Kelthuzad.scanLoop]
    rw [ih _ (fun g => by by_cases hg : g = k.stdoutGen.getD 0 <;> simp [hg])]
    rfl

/-- Concrete supervisor state for the C3 witness (stdout mode, bound to
generation 1's pipe). -/
def kC3 : Kelthuzad :=
  { cmdGen := 1, stdoutGen := some 1,
    opt := { logPath := "", cmdPath := "./svc", regex := "FATAL",
             verbose := false, delay := 5 },
    regex := fun l => l == "FATAL" }

/-- Concrete environment for the C3 witness. -/
def envC3 : Env := ⟨fun _ => some 9⟩

/-- Witness for C3: on a concrete dead stream, five units of fuel yield
five immediate retries with no events and no state change. -/
theorem monitorStdout_spins_without_wait_witness :
    (∀ g : Nat, (fun _ : Nat => ([] : List String)) g = []) ∧
    Kelthuzad.monitorStdout envC3 kC3 (fun _ => []) 5 = (kC3, [], 5) :=
  ⟨fun _ => rfl,
   monitorStdout_spins_without_wait envC3 kC3 (fun _ => []) 5 (fun _ => rfl)⟩

/-- C5: for every configuration and every sequence of lines none of
which matches the pattern, the supervisor state is unchanged (the
original process handle stays current), no termination signal and no
spawn ever occurs, and the events are exactly one status notification
per line when verbose is set and nothing otherwise. -/
theorem runLines_no_match_no_respawn (env : Env) (k : Kelthuzad)
    (lines : List String) (h : ∀ l ∈ lines, k.regex l = false) :
    Kelthuzad.runLines env k lines =
      (k, if k.opt.verbose then lines.map Event.notifyLine else [], true)
    ∧ ((Kelthuzad.runLines env k lines).2.1).filter Event.isTerminate = []
    ∧ ((Kelthuzad.runLines env k lines).2.1).filter Event.isSpawn = [] := by
  have hmain : ∀ ls, (∀ l ∈ ls, k.regex l = false) →
      Kelthuzad.runLines env k ls =
        (k, if k.opt.verbose then ls.map Event.notifyLine else [], true) := by
    intro ls
    induction ls with
    | nil => intro _; simp [Kelthuzad.runLines]
    | cons l ls ih =>
      intro hall
      have hl : k.regex l = false := hall l (by simp)
      have hls : ∀ x ∈ ls, k.regex x = false := fun x hx => hall x (by simp [hx])
      by_cases hv : k.opt.verbose
      · simp only [Kelthuzad.runLines, Kelthuzad.check, hl, if_false, hv, if_true,
          Bool.false_eq_true, ite_false, ite_true]
        rw [ih hls]
        simp [hv]
      · simp only [Kelthuzad.runLines, Kelthuzad.check, hl, Bool.false_eq_true,
          ite_false, hv]
        rw [ih hls]
        simp [hv]
  refine ⟨hmain lines h, ?_, ?_⟩ <;> rw [hmain lines h] <;>
    by_cases hv : k.opt.verbose <;>
      simp [hv, List.filter_map, Function.comp, Event.isTerminate, Event.isSpawn]

/-- Concrete supervisor state for the C5 witness. -/
def kC5 : Kelthuzad :=
  { cmdGen := 1, stdoutGen := some 1,
    opt := { logPath := "", cmdPath := "./svc", regex := "FATAL",
             verbose := true, delay := 5 },
    regex := fun l => l == "FATAL" }

/-- Concrete environment for the C5 witness. -/
def envC5 : Env := ⟨fun _ => some 4⟩

/-- Witness for C5: feeding two non-matching lines in verbose mode
leaves the state unchanged and only notifies the lines. -/
theorem runLines_no_match_no_respawn_witness :
    (∀ l ∈ ["info", "hello"], kC5.regex l = false) ∧
    (Kelthuzad.runLines envC5 kC5 ["info", "hello"] =
      (kC5, if kC5.opt.verbose
            then (["info", "hello"] : List String).map Event.notifyLine else [], true)
    ∧ ((Kelthuzad.runLines envC5 kC5 ["info", "hello"]).2.1).filter Event.isTerminate = []
    ∧ ((Kelthuzad.runLines envC5 kC5 ["info", "hello"]).2.1).filter Event.isSpawn = []) :=
  ⟨by decide, runLines_no_match_no_respawn envC5 kC5 ["info", "hello"] (by decide)⟩

/-- C6: over any run of the monitoring loop, every spawn event launches
the command with Setpgid set (its own new process group), and every
termination signal carries SIGTERM (15) and targets the negation of a
process-group id obtained from a getpgid lookup — never a bare pid. -/
theorem run_group_discipline (env : Env) (k : Kelthuzad) (lines : List String) :
    ∀ e ∈ (Kelthuzad.runLines env k lines).2.1,
      Event.spawnNewGroup e ∧ Event.terminateTargetsGroup env e := by
  induction lines generalizing k with
  | nil =>
    intro e he
    simp [Kelthuzad.runLines] at he
  | cons l ls ih =>
    have hcheck : ∀ e ∈ (k.check env l).2.1,
        Event.spawnNewGroup e ∧ Event.terminateTargetsGroup env e := by
      intro e he
      by_cases hm : k.regex l
      · rcases hgp : env.getpgid k.cmdGen with _ | g
        · simp [Kelthuzad.check, Kelthuzad.kill, hm, hgp] at he
          rcases he with rfl | rfl | rfl | rfl <;>
            simp [Event.spawnNewGroup, Event.terminateTargetsGroup]
        · simp [Kelthuzad.check, Kelthuzad.kill, Kelthuzad.spawn, hm, hgp] at he
          rcases he with rfl | rfl | rfl | rfl | rfl
          · simp [Event.spawnNewGroup, Event.terminateTargetsGroup]
          · simp [Event.spawnNewGroup, Event.terminateTargetsGroup]
          · simp [Event.spawnNewGroup, Event.terminateTargetsGroup]
          · refine ⟨by simp [Event.spawnNewGroup], ?_⟩
            intro t s hts
            injection hts with h1 h2
            exact ⟨h2.symm, k.cmdGen, g, hgp, h1.symm⟩
          · refine ⟨?_, by simp [Event.terminateTargetsGroup]⟩
            intro g' b hgb
            injection hgb with hg1 hb
            exact hb.symm
      · by_cases hv : k.opt.verbose
        · simp [Kelthuzad.check, hm, hv] at he
          subst he
          simp [Event.spawnNewGroup, Event.terminateTargetsGroup]
        · simp [Kelthuzad.check, hm, hv] at he
    intro e he
    rcases hc : k.check env l with ⟨k1, ev, _ | _⟩
    · simp only [Kelthuzad.runLines, hc] at he
      exact hcheck e (by rw [hc]; exact he)
    · rcases hr : Kelthuzad.runLines env k1 ls with ⟨k2, ev2, b2⟩
      simp only [Kelthuzad.runLines, hc, hr, List.mem_append] at he
      rcases he with he | he
      · exact hcheck e (by rw [hc]; exact he)
      · exact ih k1 e (by rw [hr]; exact he)

/-- Concrete supervisor state for the C6 witness. -/
def kC6 : Kelthuzad :=
  { cmdGen := 1, stdoutGen := some 1,
    opt := { logPath := "", cmdPath := "./svc", regex := "FATAL",
             verbose := false, delay := 2 },
    regex := fun l => l == "FATAL" }

/-- Concrete environment for the C6 witness: pid 1 belongs to group 6. -/
def envC6 : Env := ⟨fun _ => some 6⟩

/-- Witness for C6: in a concrete run containing a respawn, the
termination-signal event satisfies the group discipline. -/
theorem run_group_discipline_witness :
    Event.signalSent (-6) 15 ∈ (Kelthuzad.runLines envC6 kC6 ["FATAL"]).2.1 ∧
    (Event.spawnNewGroup (Event.signalSent (-6) 15)
      ∧ Event.terminateTargetsGroup envC6 (Event.signalSent (-6) 15)) :=
  ⟨by decide, run_group_discipline envC6 kC6 ["FATAL"] (Event.signalSent (-6) 15) (by decide)⟩

/-- C7: the tail configuration used by monitorLog seeks to the current
end of file, so the lines delivered are exactly the appended ones:
monitorLog classifies the appended lines only, and a pre-existing line
(not also appended later) is never delivered to the detector. -/
theorem monitorLog_only_appended (env : Env) (k : Kelthuzad)
    (pre app : List String) :
    tailLines kelTailConfig pre app = app
    ∧ Kelthuzad.monitorLog env k pre app = Kelthuzad.runLines env k app
    ∧ ∀ l ∈ pre, l ∉ app → l ∉ tailLines kelTailConfig pre app := by
  refine ⟨rfl, rfl, ?_⟩
  intro l _ hnot
  rw [show tailLines kelTailConfig pre app = app from rfl]
  exact hnot

/-- Concrete supervisor state for the C7 witness. -/
def kC7 : Kelthuzad :=
  { cmdGen := 1, stdoutGen := none,
    opt := { logPath := "/var/log/svc.log", cmdPath := "./svc", regex := "FATAL",
             verbose := false, delay := 5 },
    regex := fun l => l == "FATAL" }

/-- Concrete environment for the C7 witness. -/
def envC7 : Env := ⟨fun _ => some 3⟩

/-- Witness for C7: with a pre-existing line and a different appended
line, the pre-existing line is not among the delivered lines. -/
theorem monitorLog_only_appended_witness :
    ("old" ∈ ["old", "older"] ∧ "old" ∉ ["new"]) ∧
    "old" ∉ tailLines kelTailConfig ["old", "older"] ["new"] :=
  ⟨by decide,
   (monitorLog_only_appended envC7 kC7 ["old", "older"] ["new"]).2.2 "old"
     (by decide) (by decide)⟩

/-- C9: when the failure pattern does not compile, New fails fatally —
regexp.MustCompile panics before spawn is reached, so the result is a
non-zero-exit error whose trace contains no spawn event: no child is
ever spawned before the exit. -/
theorem New_bad_pattern_fatal (compile : String → Option (String → Bool))
    (opt : Opts) (h : compile opt.regex = none) :
    New compile opt = Except.error [Event.fatalExit]
    ∧ ∀ e ∈ [Event.fatalExit], Event.isSpawn e = false := by
  refine ⟨by simp [New, h], by decide⟩

/-- Concrete failing regex compiler and options for the C9 witness. -/
def compileC9 : String → Option (String → Bool) := fun _ => none

/-- Concrete options with an uncompilable pattern for the C9 witness. -/
def optC9 : Opts :=
  { logPath := "", cmdPath := "./svc", regex := "(", verbose := false, delay := 5 }

/-- Witness for C9 at a concrete failing pattern. -/
theorem New_bad_pattern_fatal_witness :
    compileC9 optC9.regex = none ∧
    (New compileC9 optC9 = Except.error [Event.fatalExit]
      ∧ ∀ e ∈ [Event.fatalExit], Event.isSpawn e = false) :=
  ⟨rfl, New_bad_pattern_fatal compileC9 optC9 rfl⟩

/-- Concrete supervisor state for C8 (stdout mode, cooldown 0, scanner
currently bound to generation 1's pipe). -/
def kC8 : Kelthuzad :=
  { cmdGen := 1, stdoutGen := some 1,
    opt := { logPath := "", cmdPath := "./svc", regex := "FATAL",
             verbose := false, delay := 0 },
    regex := fun l => l == "FATAL" }

/-- Concrete environment for C8. -/
def envC8 : Env := ⟨fun _ => some 7⟩

/-- Stream contents for C8: generation 1's pipe still holds a buffered
line after the matching one; generation 2's pipe holds a fresh line. -/
def streamsC8 : Nat → List String :=
  fun g => if g = 1 then ["FATAL", "leftover"] else if g = 2 then ["fresh"] else []

/-- C8 counterexample: the scanner is created from k.stdout before the
respawn and keeps reading the old pipe afterwards, so the first line
classified after the respawn (which spawned generation 2) is the old
process's buffered line, read from generation 1's stream — not a line
of the newly spawned process. -/
theorem stdout_rebind_cex :
    (Kelthuzad.monitorStdout envC8 kC8 streamsC8 2).2.1 =
      [Event.readLine 1 "FATAL", Event.notifyFail "FATAL" "FATAL",
       Event.notifyWait 0, Event.sleepFor 0, Event.signalSent (-7) 15,
       Event.spawned 2 true, Event.readLine 1 "leftover", Event.readLine 2 "fresh"]
    ∧ firstReadAfterSpawn ((Kelthuzad.monitorStdout envC8 kC8 streamsC8 2).2.1) =
        some (1, "leftover")
    ∧ (1 : Nat) ≠ 2 := by
  refine ⟨rfl, rfl, by decide⟩

/-- check produces no readLine event: line deliveries are recorded only
by the scanner loop itself. -/
lemma check_no_readLine (env : Env) (k : Kelthuzad) (line : String) :
    ∀ g l, Event.readLine g l ∉ (k.check env line).2.1 := by
  intro g l
  by_cases hm : k.regex line
  · rcases hgp : env.getpgid k.cmdGen with _ | pg <;>
      simp [Kelthuzad.check, Kelthuzad.kill, Kelthuzad.spawn, hm, hgp]
  · by_cases hv : k.opt.verbose <;> simp [Kelthuzad.check, hm, hv]

/-- Every line delivered by a scanner bound to generation b is tagged b
and is a line of the stream the scanner was bound to. -/
lemma scanLoop_read_src (env : Env) (k : Kelthuzad) (b : Nat)
    (ls : List String) :
    ∀ g l, Event.readLine g l ∈ (Kelthuzad.scanLoop env k b ls).2.1 →
      g = b ∧ l ∈ ls := by
  induction ls generalizing k with
  | nil =>
    intro g l hl
    simp [Kelthuzad.scanLoop] at hl
  | cons x xs ih =>
    intro g l hl
    rcases hc : k.check env x with ⟨k1, ev, _ | _⟩
    · simp only [Kelthuzad.scanLoop, hc, List.mem_cons] at hl
      rcases hl with hl | hl
      · injection hl with h1 h2
        exact ⟨h1, by simp [h2]⟩
      · exact absurd hl (by have := check_no_readLine env k x g l; rw [hc] at this; exact this)
    · rcases hr : Kelthuzad.scanLoop env k1 b xs with ⟨k2, ev2, c⟩
      simp only [Kelthuzad.scanLoop, hc, hr, List.mem_cons, List.mem_append] at hl
      rcases hl with hl | hl | hl
      · injection hl with h1 h2
        exact ⟨h1, by simp [h2]⟩
      · exact absurd hl (by have := check_no_readLine env k x g l; rw [hc] at this; exact this)
      · have := ih k1 g l (by rw [hr]; exact hl)
        exact ⟨this.1, by simp [this.2]⟩

/-- C8 amended: after a respawn the scanner keeps draining the old
process's stream, and the line source is rebound to the new process's
stdout only when the outer loop re-creates the scanner; every line
delivered while bound to a generation comes from that generation's own
stream, so no line produced by the new process is ever read through the
old process's line source. -/
theorem readLine_from_own_stream (env : Env) (k : Kelthuzad)
    (streams : Nat → List String) (n : Nat) :
    ∀ g l, Event.readLine g l ∈ (Kelthuzad.monitorStdout env k streams n).2.1 →
      l ∈ streams g := by
  induction n generalizing k streams with
  | zero =>
    intro g l hl
    simp [Kelthuzad.monitorStdout] at hl
  | succ n ih =>
    intro g l hl
    rcases hs : Kelthuzad.scanLoop env k (k.stdoutGen.getD 0)
        (streams (k.stdoutGen.getD 0)) with ⟨k1, ev, _ | _⟩
    · simp only [Kelthuzad.monitorStdout, hs] at hl
      have := scanLoop_read_src env k (k.stdoutGen.getD 0)
        (streams (k.stdoutGen.getD 0)) g l (by rw [hs]; exact hl)
      rw [this.1]
      exact this.2
    · rcases hr : Kelthuzad.monitorStdout env k1
          (fun g => if g = k.stdoutGen.getD 0 then [] else streams g) n
        with ⟨k2, ev2, c⟩
      simp only [Kelthuzad.monitorStdout, hs, hr, List.mem_append] at hl
      rcases hl with hl | hl
      · have := scanLoop_read_src env k (k.stdoutGen.getD 0)
          (streams (k.stdoutGen.getD 0)) g l (by rw [hs]; exact hl)
        rw [this.1]
        exact this.2
      · have := ih k1 (fun g => if g = k.stdoutGen.getD 0 then [] else streams g)
          g l (by rw [hr]; exact hl)
        by_cases hg : g = k.stdoutGen.getD 0
        · simp [hg] at this
        · simpa [hg] using this
/-- Witness for the amended C8: the buffered old-process line read after
the respawn is indeed a line of generation 1's stream. -/
theorem readLine_from_own_stream_witness :
    Event.readLine 1 "leftover" ∈ (Kelthuzad.monitorStdout envC8 kC8 streamsC8 2).2.1
    ∧ "leftover" ∈ streamsC8 1 :=
  ⟨by decide, readLine_from_own_stream envC8 kC8 streamsC8 2 1 "leftover" (by decide)⟩

/-- C4 counterexample: running the race schedule, the interrupt handler
reads k.cmd while it still holds the old command, the main loop then
spawns and starts generation 2, and the handler sends its signal to
generation 1's group and exits. In the final state the program has
exited, the currently-current command (generation 2) is started and its
process group is live, yet it received zero termination signals — not
exactly one — while the old group received two: the shutdown that
arrived between terminate-old and spawn-new was lost with respect to
the currently-live process group. -/
theorem shutdown_race_cex :
    (crun cinit raceSched).exited = true
    ∧ (crun cinit raceSched).started (crun cinit raceSched).cmdGen = true
    ∧ (crun cinit raceSched).osLive (crun cinit raceSched).cmdGen = true
    ∧ ¬ signalsTo (crun cinit raceSched) (crun cinit raceSched).cmdGen = 1
    ∧ signalsTo (crun cinit raceSched) 1 = 2 := by
  refine ⟨rfl, rfl, rfl, by decide, rfl⟩

/-- C4 amended: when the shutdown handler's read of the current command
interleaves between the respawn's terminate of the old process and the
assignment of the new one, the shutdown's termination signal targets the
old process group (which then receives two signals in total) and the
supervisor exits while the newly spawned, currently-live process group
has received no termination signal at all. -/
theorem shutdown_race_signals_old_group :
    (crun cinit raceSched).signals = [(1, 15), (1, 15)]
    ∧ (crun cinit raceSched).cmdGen = 2
    ∧ (crun cinit raceSched).started 2 = true
    ∧ (crun cinit raceSched).osLive 2 = true
    ∧ signalsTo (crun cinit raceSched) 2 = 0
    ∧ (crun cinit raceSched).exited = true := by
  exact ⟨rfl, rfl, rfl, rfl, rfl, rfl⟩

/-- C10 counterexample: spawn() has returned (the command is assigned to
k.cmd, its start-goroutine is pending) but the goroutine has not yet run
cmd.Start when kill is invoked — as can happen in log-path mode when a
matching log line arrives immediately. Reading k.cmd.Process.Pid then
dereferences a nil Process field. -/
theorem kill_before_start_cex : (crun cinit nilSched).nilDeref = true := rfl

/-- C10 amended: the current command's Process field is non-nil exactly
once its background goroutine has executed cmd.Start; from any state in
which the current command has been started, no step — in particular no
kill, whether from the monitoring loop or from the shutdown handler —
dereferences a nil Process pointer. A kill that runs before the
goroutine's Start step, however, does (see the counterexample). -/
theorem kill_after_start_safe (s : CState) (l : CLabel)
    (h0 : s.nilDeref = false) (h1 : s.started s.cmdGen = true) :
    (cstep s l).nilDeref = false := by
  cases l with
  | spawnAssign =>
    simp only [cstep]
    split
    · exact h0
    · exact h0
  | goStart g =>
    simp only [cstep]
    split
    · exact h0
    · split <;> exact h0
  | mainKill =>
    simp only [cstep]
    split
    · exact h0
    · split <;> exact h0
  | sigRead =>
    simp only [cstep]
    split
    · exact h0
    · exact h0
  | sigKill =>
    simp only [cstep]
    split
    · exact h0
    · split
      · split <;> exact h0
      · exact h0
  | sigExit =>
    simp only [cstep]
    split
    · exact h0
    · exact h0

/-- State after the first spawn's goroutine has run Start, used to
instantiate the amended C10 theorem. -/
def sC10 : CState := crun cinit [CLabel.spawnAssign, CLabel.goStart 1]

/-- Witness for the amended C10: once generation 1 is started, a kill
from the monitoring loop dereferences no nil pointer. -/
theorem kill_after_start_safe_witness :
    sC10.nilDeref = false ∧ sC10.started sC10.cmdGen = true ∧
    (cstep sC10 CLabel.mainKill).nilDeref = false :=
  ⟨rfl, rfl, kill_after_start_safe sC10 CLabel.mainKill rfl rfl⟩
